import Mathlib

/-!
Shallow embedding of `code/data_wrangling.py` (TESSHacks repository).

The file defines three operations:
  * `read_tess_info`       — the Catalog Builder: decode TESS light-curve
    file paths into catalog rows;
  * `crossmatch_gaia`      — the Cross-Match Merger: concatenate Gaia
    cross-match tables and join them against the catalog;
  * `read_tess_lightcurve` — the Observation Reader: header extraction and
    quality/finiteness filtering of the light-curve series.

Python runtime failures (IndexError, ValueError, NameError, pandas errors)
are modelled with an explicit error type and `Except`.
-/

set_option linter.unusedVariables false

namespace DataWrangling

instance {ε α : Type} [DecidableEq ε] [DecidableEq α] : DecidableEq (Except ε α) := fun a b =>
  match a, b with
  | Except.ok x, Except.ok y =>
      if h : x = y then isTrue (by rw [h]) else isFalse (fun hc => by cases hc; exact h rfl)
  | Except.ok _, Except.error _ => isFalse (fun hc => by cases hc)
  | Except.error _, Except.ok _ => isFalse (fun hc => by cases hc)
  | Except.error e, Except.error e2 =>
      if h : e = e2 then isTrue (by rw [h]) else isFalse (fun hc => by cases hc; exact h rfl)

/-- Python-level runtime errors that the code in `data_wrangling.py` can raise. -/
inductive PyErr where
  | indexError
  | valueError
  | nameError
  | keyError
  | fileNotFound
  | noObjectsToConcatenate
  | mergeTypeError
  deriving DecidableEq, Repr

/-- Python list indexing `xs[i]`, including negative indices counted from
the end; out-of-range access raises `IndexError`. -/
def pyIndex {α : Type} (xs : List α) (i : Int) : Except PyErr α :=
  let j : Int := if i < 0 then i + xs.length else i
  if 0 ≤ j then
    match xs.get? j.toNat with
    | some x => Except.ok x
    | none => Except.error PyErr.indexError
  else
    Except.error PyErr.indexError

/-- Python `str.split(sep)` for a one-character separator, on the character
list: splitting never yields an empty list, and consecutive separators
produce empty fields, as in Python. -/
def pySplitChar (sep : Char) : List Char → List (List Char)
  | [] => [[]]
  | c :: cs =>
      if c = sep then [] :: pySplitChar sep cs
      else
        match pySplitChar sep cs with
        | [] => [[c]]
        | g :: gs => (c :: g) :: gs

/-- Python `s.split(sep)` for a one-character separator string. -/
def pySplit (s : String) (sep : Char) : List String :=
  (pySplitChar sep s.toList).map String.mk

/-- Remove leading and trailing characters satisfying `p` (Python `str.strip`). -/
def stripChars (p : Char → Bool) (cs : List Char) : List Char :=
  ((cs.dropWhile p).reverse.dropWhile p).reverse

/-- Value of a digit string, `none` when empty or containing a non-digit. -/
def parseDigits (cs : List Char) : Option Nat :=
  if cs = [] then none
  else if cs.all Char.isDigit then
    some (cs.foldl (fun a c => a * 10 + (c.toNat - 48)) 0)
  else none

/-- Python `int(s)` (the behaviour of `np.int`, an alias of the builtin
`int`): strip surrounding whitespace, allow one optional sign, then require
a non-empty run of digits; anything else raises `ValueError`. -/
def pyInt (s : String) : Except PyErr Int :=
  match stripChars Char.isWhitespace s.toList with
  | '-' :: rest =>
      match parseDigits rest with
      | some n => Except.ok (-(n : Int))
      | none => Except.error PyErr.valueError
  | '+' :: rest =>
      match parseDigits rest with
      | some n => Except.ok (n : Int)
      | none => Except.error PyErr.valueError
  | cs =>
      match parseDigits cs with
      | some n => Except.ok (n : Int)
      | none => Except.error PyErr.valueError

/-- One catalog row produced by `read_tess_info` (the keys of the
`single_info` dictionary, in insertion order). -/
structure TessRow where
  subdir : String
  filename : String
  daterange : String
  sector_no : String
  tess_id : Int
  cadence : String
  deriving DecidableEq, Repr

/-- The body of the loop of `read_tess_info` for one discovered path `f`:
`fsplit = f.split("/")`, `subdir = fsplit[-2]`, `filename = fsplit[-1]`,
`fname_split = filename.split("-")`, then `daterange = fname_split[0]`,
`sector_no = fname_split[1]`, `tess_id = np.int(fname_split[2])`,
`cadence = fname_split[3]`, evaluated in source order. -/
def read_tess_info_row (f : String) : Except PyErr TessRow := do
  let fsplit := pySplit f '/'
  let subdir ← pyIndex fsplit (-2)
  let filename ← pyIndex fsplit (-1)
  let fname_split := pySplit filename '-'
  let daterange ← pyIndex fname_split 0
  let sector_no ← pyIndex fname_split 1
  let t2 ← pyIndex fname_split 2
  let tess_id ← pyInt t2
  let cadence ← pyIndex fname_split 3
  Except.ok { subdir := subdir, filename := filename, daterange := daterange,
              sector_no := sector_no, tess_id := tess_id, cadence := cadence }

/-- Model of `read_tess_info`, taking the list of paths returned by
`glob.glob(datadir + "**/*.fits", recursive=True)` as input.  The loop
appends one row per file and any raised error aborts the whole build;
`pd.DataFrame` of the accumulated list is the list of rows itself. -/
def read_tess_info (datafiles : List String) : Except PyErr (List TessRow) :=
  datafiles.mapM read_tess_info_row

/-! ### A small model of the pandas operations used by `crossmatch_gaia` -/

/-- A cell value of a pandas table (the reference CSVs hold numbers and
strings). -/
inductive Val where
  | int (n : Int)
  | str (s : String)
  deriving DecidableEq, Repr

/-- A pandas `DataFrame`: a column list and one association list per row.
A cell for a column with no entry in the row's association list is null
(`NaN`). -/
structure DF where
  cols : List String
  rows : List (List (String × Val))
  deriving DecidableEq, Repr

/-- Well-formed frame: every row binds only columns of the frame. -/
def DF.WF (df : DF) : Prop :=
  ∀ r ∈ df.rows, ∀ p ∈ r, p.1 ∈ df.cols

/-- Lexicographic order on character lists. -/
def charListLe : List Char → List Char → Bool
  | [], _ => true
  | _ :: _, [] => false
  | a :: as, b :: bs =>
      if a = b then charListLe as bs else decide (a.toNat < b.toNat)

/-- Total order on strings used to model pandas column sorting. -/
def strLe (a b : String) : Bool :=
  charListLe a.toList b.toList

/-- Insert into a (sorted) list, keeping the comparator's order. -/
def insertSorted {α : Type} (le : α → α → Bool) (a : α) : List α → List α
  | [] => [a]
  | b :: bs => if le a b then a :: b :: bs else b :: insertSorted le a bs

/-- Insertion sort with a Boolean comparator. -/
def insSort {α : Type} (le : α → α → Bool) : List α → List α
  | [] => []
  | a :: as => insertSorted le a (insSort le as)

/-- Model of `pd.concat(dfs, ignore_index=True, sort=True)`: raises `ValueError`
("No objects to concatenate") on an empty list; otherwise stacks all rows
in order and takes as columns the sorted union of the input column sets,
cells of columns absent from a row's source frame being null. -/
def pd_concat (dfs : List DF) : Except PyErr DF :=
  if dfs = [] then Except.error PyErr.noObjectsToConcatenate
  else
    Except.ok { cols := insSort strLe ((dfs.map DF.cols).flatten.dedup),
                rows := (dfs.map DF.rows).flatten }

/-- Null-aware cell access: the value bound to column `c` in row `r`,
or `none` (NaN) when the row has no binding for `c`. -/
def cellOf (r : List (String × Val)) (c : String) : Option Val :=
  r.lookup c

/-- Inner join of two frames on `left[lon] == right[ron]` (the
`pd.merge(left, right, left_on=lon, right_on=ron)` row semantics): every
pair of rows whose key cells are both present and equal contributes one
concatenated row. -/
def inner_join (l r : DF) (lon ron : String) : DF :=
  { cols := l.cols ++ r.cols,
    rows := l.rows.flatMap (fun lr =>
      (r.rows.filter (fun rr =>
        match cellOf lr lon, cellOf rr ron with
        | some a, some b => decide (a = b)
        | _, _ => false)).map (fun rr => lr ++ rr)) }

/-- A Python object passed to `pd.merge`: pandas checks that each operand
is a `DataFrame` (or `Series`) and raises `TypeError` otherwise, so the
model distinguishes a frame from a plain Python list of frames. -/
inductive PdObj where
  | frame (df : DF)
  | listOfFrames (dfs : List DF)
  deriving Repr

/-- Model of `pd.merge(left, right, left_on, right_on)`: a `TypeError` ("Can only
merge Series or DataFrame objects") unless both operands are frames. -/
def pd_merge (left right : PdObj) (lon ron : String) : Except PyErr DF :=
  match left, right with
  | PdObj.frame l, PdObj.frame r => Except.ok (inner_join l r lon ron)
  | _, _ => Except.error PyErr.mergeTypeError

/-- Model of `crossmatch_gaia(tess_info, gaia_files)`, with the CSV files already
parsed into frames (`pd.read_csv` succeeding on each path).  As in the
source: the loop builds the Python list `gaiamatch`; `gaia_merged` is the
concatenation of that list; the final merge is called on `gaiamatch` — the
list itself, not the concatenated frame. -/
def crossmatch_gaia (tess_info : DF) (gaia_files : List DF) : Except PyErr DF := do
  let gaiamatch := gaia_files
  let gaia_merged ← pd_concat gaiamatch
  let tess_gaia ← pd_merge (PdObj.frame tess_info) (PdObj.listOfFrames gaiamatch)
      "tess_id" "ticid"
  Except.ok tess_gaia

/-! ### A model of the FITS access used by `read_tess_lightcurve` -/

/-- A floating-point value of a light-curve column: a finite number, or one
of the non-finite IEEE values (`NaN`, `±inf`).  `QUALITY` entries are
integer-valued and are carried as finite numbers. -/
inductive FV where
  | fin (q : ℚ)
  | nan
  | inf
  | ninf
  deriving DecidableEq, Repr

/-- The test `np.isfinite` on a column value. -/
def FV.isfinite : FV → Bool
  | FV.fin _ => true
  | _ => false

/-- A FITS header value (numeric or string card). -/
inductive HV where
  | num (q : ℚ)
  | str (s : String)
  deriving DecidableEq, Repr

/-- The parts of an opened FITS light-curve file that
`read_tess_lightcurve` touches: the primary-HDU header cards
(`hdulist[0].header`) and the first-extension binary-table columns
(`hdulist[1].data`). -/
structure LCFile where
  header : List (String × HV)
  columns : List (String × List FV)
  deriving DecidableEq, Repr

/-- Header access `hdulist[0].header[key]`: a missing card raises `KeyError`. -/
def LCFile.card (f : LCFile) (key : String) : Except PyErr HV :=
  match f.header.lookup key with
  | some v => Except.ok v
  | none => Except.error PyErr.keyError

/-- Column access `hdulist[1].data.field(name)`: a missing column raises `KeyError`. -/
def LCFile.field (f : LCFile) (name : String) : Except PyErr (List FV) :=
  match f.columns.lookup name with
  | some xs => Except.ok xs
  | none => Except.error PyErr.keyError

/-- The `(output key, header card)` pairs read at lines 126-140 of
`data_wrangling.py`, in source order. -/
def header_keys : List (String × String) :=
  [("tstart", "TSTART"), ("tstop", "TSTOP"), ("date_obs", "DATE-OBS"),
   ("date_end", "DATE-END"), ("ticid", "TICID"), ("ra", "RA_OBJ"),
   ("dec", "DEC_OBJ"), ("pmra", "PMRA"), ("pmdec", "PMDEC"),
   ("pmtotal", "PMTOTAL"), ("tessmag", "TESSMAG"), ("teff", "TEFF"),
   ("log_g", "LOGG"), ("mh", "MH"), ("radius", "RADIUS")]

/-- Populate the `data` dictionary's header entries. -/
def extract_header (f : LCFile) : Except PyErr (List (String × HV)) :=
  header_keys.mapM (fun p => do
    let v ← f.card p.2
    Except.ok (p.1, v))

/-- The numpy boolean mask
`(quality == quality_flag) & (np.isfinite(flux))`, elementwise. -/
def maskOf (quality flux : List FV) (quality_flag : Int) : List Bool :=
  (quality.zip flux).map
    (fun p => decide (p.1 = FV.fin (quality_flag : ℚ)) && p.2.isfinite)

/-- numpy boolean-mask indexing `xs[mask]`: keep the entries whose mask
bit is `true`, in order. -/
def applyMask {α : Type} : List α → List Bool → List α
  | [], _ => []
  | _ :: _, [] => []
  | x :: xs, b :: bs => if b then x :: applyMask xs bs else applyMask xs bs

/-- Lines 153-165 of `data_wrangling.py`, as a function of the four raw
columns: truncate the first sample of each (`[1:]`), compute the mask from
the truncated quality and flux, and index time, flux and flux-error by that
same mask. -/
def lc_process (time flux flux_err quality : List FV) (quality_flag : Int) :
    List FV × List FV × List FV :=
  let time' := time.tail
  let flux' := flux.tail
  let flux_err' := flux_err.tail
  let quality' := quality.tail
  let mask := maskOf quality' flux' quality_flag
  (applyMask time' mask, applyMask flux' mask, applyMask flux_err' mask)

/-- The record returned by `read_tess_lightcurve` (the `data` dictionary):
header entries plus the three filtered series. -/
structure LCData where
  header : List (String × HV)
  time : List FV
  flux : List FV
  flux_err : List FV
  deriving DecidableEq, Repr

/-- The body of `read_tess_lightcurve` once the file is open.  Note, as in
the source: `flux_key` / `flux_err_key` are set from the `pdc` flag
(lines 143-148) but the fields actually read at lines 154-155 are the
literal names `"PDCSAP_FLUX"` and `"PDCSAP_FLUX_ERR"` — the computed keys
are never used. -/
def read_tess_lightcurve_core (hdulist : LCFile) (pdc : Bool) (quality_flag : Int) :
    Except PyErr LCData := do
  let hdr ← extract_header hdulist
  let flux_key := if pdc then "PDC" ++ "SAP_FLUX" else "SAP_FLUX"
  let flux_err_key := if pdc then "PDC" ++ "SAP_FLUX_ERR" else "SAP_FLUX_ERR"
  let time ← hdulist.field "TIME"
  let flux ← hdulist.field "PDCSAP_FLUX"
  let flux_err ← hdulist.field "PDCSAP_FLUX_ERR"
  let quality ← hdulist.field "QUALITY"
  let r := lc_process time flux flux_err quality quality_flag
  Except.ok { header := hdr, time := r.1, flux := r.2.1, flux_err := r.2.2 }

/-- Model of `read_tess_lightcurve(filename, pdc, quality_flag)`.  The open call at
line 122 is `fits.open(fname)`: `fname` is not the parameter (which is
named `filename`) and is not defined in the function, so it is resolved in
the enclosing module scope (`globals`); an unbound `fname` raises
`NameError`.  `fits_files` models the filesystem: the openable FITS files
by path. -/
def read_tess_lightcurve (fits_files : List (String × LCFile))
    (globals : List (String × String)) (filename : String) (pdc : Bool)
    (quality_flag : Int) : Except PyErr LCData := do
  let fname ← (match globals.lookup "fname" with
    | some v => Except.ok v
    | none => Except.error PyErr.nameError)
  let hdulist ← (match fits_files.lookup fname with
    | some f => Except.ok f
    | none => Except.error PyErr.fileNotFound)
  read_tess_lightcurve_core hdulist pdc quality_flag

/-! ### Concrete sample data used to evaluate the embedding -/

/-- A complete primary-HDU header carrying every card that
`read_tess_lightcurve` extracts. -/
def sampleHeader : List (String × HV) :=
  [("TSTART", HV.num 1), ("TSTOP", HV.num 2), ("DATE-OBS", HV.str "2019-01-01"),
   ("DATE-END", HV.str "2019-01-28"), ("TICID", HV.num 123), ("RA_OBJ", HV.num 10),
   ("DEC_OBJ", HV.num 20), ("PMRA", HV.num 0), ("PMDEC", HV.num 0),
   ("PMTOTAL", HV.num 0), ("TESSMAG", HV.num 9), ("TEFF", HV.num 5000),
   ("LOGG", HV.num 4), ("MH", HV.num 0), ("RADIUS", HV.num 1)]

/-- A light-curve file whose SAP and PDCSAP columns hold different values,
so that the two flux variants are distinguishable. -/
def fileC1 : LCFile :=
  { header := sampleHeader,
    columns := [("TIME", [FV.fin 0, FV.fin 1]),
                ("SAP_FLUX", [FV.fin 10, FV.fin 11]),
                ("SAP_FLUX_ERR", [FV.fin 1, FV.fin 1]),
                ("PDCSAP_FLUX", [FV.fin 20, FV.fin 21]),
                ("PDCSAP_FLUX_ERR", [FV.fin 2, FV.fin 2]),
                ("QUALITY", [FV.fin 0, FV.fin 0])] }

/-- A light-curve file with no header cards and no columns. -/
def fileEmptyLC : LCFile := { header := [], columns := [] }

/-- A one-column reference table (column `a`). -/
def gaiaA : DF := { cols := ["a"], rows := [[("a", Val.int 1)]] }

/-- A reference table with a different column set (column `b`). -/
def gaiaB : DF := { cols := ["b"], rows := [[("b", Val.int 2)], [("b", Val.int 3)]] }

/-- The concatenation of `gaiaA` and `gaiaB`: all three rows, columns
sorted union `a, b`. -/
def gaiaAB : DF :=
  { cols := ["a", "b"],
    rows := [[("a", Val.int 1)], [("b", Val.int 2)], [("b", Val.int 3)]] }

/-! ### Helper lemmas -/

lemma except_bind_ok {ε α β : Type} (x : α) (f : α → Except ε β) :
    (Except.ok x : Except ε α) >>= f = f x := rfl

lemma except_bind_error {ε α β : Type} (e : ε) (f : α → Except ε β) :
    (Except.error e : Except ε α) >>= f = Except.error e := rfl

lemma pyIndex_two_neg_two {α : Type} (a b : α) : pyIndex [a, b] (-2) = Except.ok a := rfl

lemma pyIndex_two_neg_one {α : Type} (a b : α) : pyIndex [a, b] (-1) = Except.ok b := rfl

lemma pyIndex_append_neg_two {α : Type} (pre : List α) (a b : α) :
    pyIndex (pre ++ [a, b]) (-2) = Except.ok a := by
  simp only [pyIndex, List.length_append, List.length_cons, List.length_nil]
  have h : (-2 : Int) + (↑pre.length + 2) = pre.length := by omega
  norm_num [h]
  rw [List.getElem_append_right (Nat.le_refl _)]
  simp

lemma pyIndex_append_neg_one {α : Type} (pre : List α) (a b : α) :
    pyIndex (pre ++ [a, b]) (-1) = Except.ok b := by
  simp only [pyIndex, List.length_append, List.length_cons, List.length_nil]
  have h : (-1 : Int) + (↑pre.length + 2) = pre.length + 1 := by omega
  norm_num [h]
  rw [if_pos (by omega : (0 : Int) ≤ ↑pre.length + 1)]
  rw [List.getElem_append_right (Nat.le_succ_of_le (Nat.le_refl _))]
  simp

lemma pyIndex_cons_zero {α : Type} (a : α) (l : List α) : pyIndex (a :: l) 0 = Except.ok a := rfl

lemma pyIndex_cons_one {α : Type} (a b : α) (l : List α) :
    pyIndex (a :: b :: l) 1 = Except.ok b := rfl

lemma pyIndex_cons_two {α : Type} (a b c : α) (l : List α) :
    pyIndex (a :: b :: c :: l) 2 = Except.ok c := rfl

lemma pyIndex_cons_three {α : Type} (a b c d : α) (l : List α) :
    pyIndex (a :: b :: c :: d :: l) 3 = Except.ok d := rfl

lemma pyIndex_nil_zero {α : Type} : pyIndex ([] : List α) 0 = Except.error PyErr.indexError := rfl

lemma pyIndex_one_one {α : Type} (a : α) : pyIndex [a] 1 = Except.error PyErr.indexError := rfl

lemma pyIndex_two_two {α : Type} (a b : α) :
    pyIndex [a, b] 2 = Except.error PyErr.indexError := rfl

lemma pyIndex_three_three {α : Type} (a b c : α) :
    pyIndex [a, b, c] 3 = Except.error PyErr.indexError := rfl

lemma applyMask_sublist {α : Type} :
    ∀ (xs : List α) (m : List Bool), List.Sublist (applyMask xs m) xs
  | [], _ => by simp [applyMask]
  | _ :: _, [] => by simp [applyMask]
  | x :: xs, b :: bs => by
      cases b with
      | false => simpa [applyMask] using List.Sublist.cons x (applyMask_sublist xs bs)
      | true => simpa [applyMask] using List.Sublist.cons₂ x (applyMask_sublist xs bs)

lemma applyMask_length_le {α : Type} (xs : List α) (m : List Bool) :
    (applyMask xs m).length ≤ xs.length :=
  (applyMask_sublist xs m).length_le

lemma applyMask_length_eq {α β : Type} :
    ∀ (xs : List α) (ys : List β) (m : List Bool), xs.length = ys.length →
      (applyMask xs m).length = (applyMask ys m).length
  | [], [], _, _ => rfl
  | [], _ :: _, _, h => by simp at h
  | _ :: _, [], _, h => by simp at h
  | _ :: _, _ :: _, [], _ => rfl
  | x :: xs, y :: ys, b :: bs, h => by
      have h' : xs.length = ys.length := by simpa using h
      cases b with
      | false => simpa [applyMask] using applyMask_length_eq xs ys bs h'
      | true => simpa [applyMask] using applyMask_length_eq xs ys bs h'

lemma applyMask_zip {α β : Type} :
    ∀ (xs : List α) (ys : List β) (m : List Bool),
      applyMask (xs.zip ys) m = (applyMask xs m).zip (applyMask ys m)
  | [], _, _ => by simp [applyMask]
  | _ :: _, [], _ => by simp [applyMask, List.zip_nil_right]
  | _ :: _, _ :: _, [] => by simp [applyMask]
  | x :: xs, y :: ys, b :: bs => by
      cases b with
      | false => simpa [applyMask, List.zip_cons_cons] using applyMask_zip xs ys bs
      | true => simpa [applyMask, List.zip_cons_cons] using applyMask_zip xs ys bs

lemma maskOf_nil_left (fl : List FV) (flag : Int) : maskOf [] fl flag = [] := rfl

lemma maskOf_nil_right (q : List FV) (flag : Int) : maskOf q [] flag = [] := by
  simp [maskOf, List.zip_nil_right]

lemma maskOf_cons_cons (a x : FV) (q fl : List FV) (flag : Int) :
    maskOf (a :: q) (x :: fl) flag =
      (decide (a = FV.fin (flag : ℚ)) && FV.isfinite x) :: maskOf q fl flag := rfl

lemma mem_applyMask_maskOf (flag : Int) :
    ∀ (q fl : List FV) (v : FV), v ∈ applyMask fl (maskOf q fl flag) →
      FV.isfinite v = true
  | [], fl, v => by simp [maskOf_nil_left, applyMask]; intro h; cases fl <;> simp [applyMask] at h
  | _ :: _, [], v => by simp [applyMask]
  | a :: q, x :: fl, v => by
      rw [maskOf_cons_cons, applyMask]
      by_cases hb : (decide (a = FV.fin (flag : ℚ)) && FV.isfinite x) = true
      · rw [if_pos hb]
        intro hv
        rcases List.mem_cons.mp hv with rfl | hv'
        · exact (Bool.and_eq_true _ _).mp hb |>.2
        · exact mem_applyMask_maskOf flag q fl v hv'
      · rw [if_neg hb]
        exact mem_applyMask_maskOf flag q fl v

lemma maskOf_get? (flag : Int) :
    ∀ (q fl : List FV) (i : Nat),
      (maskOf q fl flag).get? i = (q.get? i).bind (fun a => (fl.get? i).map
        (fun x => decide (a = FV.fin (flag : ℚ)) && FV.isfinite x))
  | [], fl, i => by simp [maskOf_nil_left]
  | _ :: _, [], i => by simp [maskOf_nil_right]
  | a :: q, x :: fl, 0 => by simp [maskOf_cons_cons]
  | a :: q, x :: fl, i + 1 => by
      simpa [maskOf_cons_cons] using maskOf_get? flag q fl i

lemma mem_insertSorted {α : Type} (le : α → α → Bool) (a b : α) :
    ∀ (l : List α), b ∈ insertSorted le a l ↔ b = a ∨ b ∈ l
  | [] => by simp [insertSorted]
  | c :: cs => by
      rw [insertSorted]
      by_cases h : le a c = true
      · simp [h]
      · simp only [if_neg h, List.mem_cons, mem_insertSorted le a b cs]
        tauto

lemma mem_insSort {α : Type} (le : α → α → Bool) (b : α) :
    ∀ (l : List α), b ∈ insSort le l ↔ b ∈ l
  | [] => by simp [insSort]
  | a :: as => by
      rw [insSort, mem_insertSorted, mem_insSort le b as]
      simp

lemma lookup_none_of_keys_subset (c : String) :
    ∀ (r : List (String × Val)) (cols : List String),
      (∀ p ∈ r, p.1 ∈ cols) → c ∉ cols → r.lookup c = none
  | [], _, _, _ => rfl
  | p :: ps, cols, hk, hc => by
      have hp1 : p.1 ∈ cols := hk p (List.mem_cons_self p ps)
      have hne : c ≠ p.1 := fun h => hc (h ▸ hp1)
      have hb : (c == p.1) = false := by simpa using hne
      rw [List.lookup, hb]
      exact lookup_none_of_keys_subset c ps cols
        (fun q hq => hk q (List.mem_cons_of_mem p hq)) hc

lemma read_tess_info_ok_mem :
    ∀ (files : List String) (rows : List TessRow),
      read_tess_info files = Except.ok rows →
      ∀ f ∈ files, ∃ row, read_tess_info_row f = Except.ok row := by
  intro files
  induction files with
  | nil => intro rows _ f hf; cases hf
  | cons g gs ih =>
      intro rows h f hf
      rw [read_tess_info, List.mapM_cons] at h
      cases hg : read_tess_info_row g with
      | error e => rw [hg, except_bind_error] at h; cases h
      | ok row =>
          rw [hg, except_bind_ok] at h
          rcases List.mem_cons.mp hf with rfl | hf'
          · exact ⟨row, hg⟩
          · cases hgs : List.mapM read_tess_info_row gs with
            | error e => rw [hgs, except_bind_error] at h; cases h
            | ok rows' => exact ih rows' hgs f hf'

/-! ### Claim theorems -/

/-- Claim C1: the spec says `read_tess_lightcurve` selects the flux and
flux-uncertainty fields by the `pdc` flag (true ⇒ PDCSAP_FLUX /
PDCSAP_FLUX_ERR, false ⇒ SAP_FLUX / SAP_FLUX_ERR), so the two flag values
read different fields.  The code computes `flux_key`/`flux_err_key` from
the flag but then reads the literal `"PDCSAP_FLUX"` / `"PDCSAP_FLUX_ERR"`
fields unconditionally: on a file whose SAP and PDCSAP columns differ, the
result is identical for both flag values and the `pdc = false` flux comes
from the PDCSAP column (value 21), not the SAP column (values 10, 11). -/
theorem read_tess_lightcurve_ignores_pdc_flag :
    read_tess_lightcurve_core fileC1 false 0 = read_tess_lightcurve_core fileC1 true 0 ∧
    (read_tess_lightcurve_core fileC1 false 0).toOption.map LCData.flux = some [FV.fin 21] ∧
    fileC1.columns.lookup "SAP_FLUX" = some [FV.fin 10, FV.fin 11] ∧
    fileC1.columns.lookup "PDCSAP_FLUX" = some [FV.fin 20, FV.fin 21] := by
  decide

/-- Claim C2: the spec says `crossmatch_gaia` concatenates the reference
tables and inner-joins the catalog against the combined table on
`tess_id == ticid`.  The code computes the concatenation (`gaia_merged`)
but passes the un-concatenated Python list `gaiamatch` to `pd.merge`, which
raises `TypeError`: on a catalog row with `tess_id = 5` and one reference
table with `ticid = 5` — an input the claim says must produce a joined
row — the call errors, even though the combined table it should have used
exists. -/
theorem crossmatch_gaia_merges_list_bug :
    crossmatch_gaia { cols := ["tess_id"], rows := [[("tess_id", Val.int 5)]] }
        [{ cols := ["ticid"], rows := [[("ticid", Val.int 5)]] }]
      = Except.error PyErr.mergeTypeError ∧
    pd_concat [{ cols := ["ticid"], rows := [[("ticid", Val.int 5)]] }]
      = Except.ok { cols := ["ticid"], rows := [[("ticid", Val.int 5)]] } := by
  decide

/-- Claim C4: the spec says the file opened is the one named by the
file-path parameter.  The code opens `fits.open(fname)` while the parameter
is named `filename`: with no module-level binding for `fname` the call
raises `NameError` even though the passed path exists, and when the
enclosing scope does bind `fname`, that binding — not the parameter — picks
the file that is read. -/
theorem read_tess_lightcurve_opens_unbound_fname :
    read_tess_lightcurve [("lc.fits", fileC1)] [] "lc.fits" true 0
      = Except.error PyErr.nameError ∧
    read_tess_lightcurve [("lc.fits", fileC1), ("other.fits", fileEmptyLC)]
        [("fname", "other.fits")] "lc.fits" true 0
      = read_tess_lightcurve_core fileEmptyLC true 0 ∧
    read_tess_lightcurve_core fileEmptyLC true 0 ≠ read_tess_lightcurve_core fileC1 true 0 := by
  decide

/-- Claim C9: the validity mask tests finiteness of the flux series only,
never of the flux-uncertainty series.  Concretely: at index 1 of the raw
series the quality equals the flag (0) and the flux (2) is finite, but the
flux uncertainty is NaN — and the returned `flux_err` sequence contains
that NaN value. -/
theorem read_tess_lightcurve_flux_err_unchecked :
    lc_process [FV.fin 0, FV.fin 1] [FV.nan, FV.fin 2] [FV.nan, FV.nan]
        [FV.fin 0, FV.fin 0] 0
      = ([FV.fin 1], [FV.fin 2], [FV.nan]) ∧
    FV.isfinite FV.nan = false ∧
    FV.isfinite (FV.fin 2) = true := by
  decide

/-- Claim C10: when the recursive glob matches no file, `read_tess_info`
loops over nothing and returns an empty table without raising. -/
theorem read_tess_info_no_files_empty :
    read_tess_info [] = Except.ok [] := rfl

/-- Claim C5 (counterexample): the claim says an empty catalog or an empty
reference-file list yields an empty result without error; with both empty,
`pd.concat` of the empty list raises `ValueError` ("No objects to
concatenate"), so the call errors instead of returning an empty table. -/
theorem crossmatch_gaia_empty_inputs_error :
    crossmatch_gaia { cols := ["tess_id"], rows := [] } []
      = Except.error PyErr.noObjectsToConcatenate := by
  decide

/-- Claim C5 (amended): for every catalog and reference list, if the
catalog is empty or the reference-file list is empty, `crossmatch_gaia`
raises an error rather than returning an empty result: an empty list fails
in `pd.concat`, and a non-empty list still fails in `pd.merge` because the
right operand is the Python list of tables. -/
theorem crossmatch_gaia_degenerate_raises (tess_info : DF) (gaia_files : List DF)
    (h : tess_info.rows = [] ∨ gaia_files = []) :
    ∃ e, crossmatch_gaia tess_info gaia_files = Except.error e := by
  cases gaia_files with
  | nil => exact ⟨PyErr.noObjectsToConcatenate, rfl⟩
  | cons g gs => exact ⟨PyErr.mergeTypeError, rfl⟩

/-- Claim C5 (witness for the amended theorem). -/
theorem crossmatch_gaia_degenerate_raises_witness :
    (DF.rows { cols := ["tess_id"], rows := [] } = [] ∨ ([] : List DF) = []) ∧
    ∃ e, crossmatch_gaia { cols := ["tess_id"], rows := [] } [] = Except.error e :=
  ⟨Or.inl rfl,
   crossmatch_gaia_degenerate_raises { cols := ["tess_id"], rows := [] } [] (Or.inl rfl)⟩

/-- Claim C6: for every discovered file whose base name splits on hyphens
into at least four tokens `d, s, t, c, ...` with `t` integer-parseable as
`n`, the Catalog Builder decodes exactly the row
`(daterange = d, sector_no = s, tess_id = n, cadence = c)` — `tess_id` an
integer, the other three strings (by the field types of `TessRow`). -/
theorem read_tess_info_wellformed_decode
    (path sub fn d s t c : String) (pre rest : List String) (n : Int)
    (hp : pySplit path '/' = pre ++ [sub, fn])
    (hf : pySplit fn '-' = d :: s :: t :: c :: rest)
    (hn : pyInt t = Except.ok n) :
    read_tess_info_row path = Except.ok
      { subdir := sub, filename := fn, daterange := d, sector_no := s,
        tess_id := n, cadence := c } := by
  simp only [read_tess_info_row, hp, hf, hn, pyIndex_append_neg_two, pyIndex_append_neg_one,
    pyIndex_cons_zero, pyIndex_cons_one, pyIndex_cons_two, pyIndex_cons_three,
    except_bind_ok]

/-- Claim C6 (witness). -/
theorem read_tess_info_wellformed_decode_witness :
    pySplit "data/dir/2019-s0001-0000000123-0120.fits" '/'
      = ["data"] ++ ["dir", "2019-s0001-0000000123-0120.fits"] ∧
    pySplit "2019-s0001-0000000123-0120.fits" '-' = ["2019", "s0001", "0000000123", "0120.fits"] ∧
    pyInt "0000000123" = Except.ok 123 ∧
    read_tess_info_row "data/dir/2019-s0001-0000000123-0120.fits" = Except.ok
      { subdir := "dir", filename := "2019-s0001-0000000123-0120.fits", daterange := "2019",
        sector_no := "s0001", tess_id := 123, cadence := "0120.fits" } :=
  ⟨by decide, by decide, by decide,
   read_tess_info_wellformed_decode "data/dir/2019-s0001-0000000123-0120.fits" "dir"
     "2019-s0001-0000000123-0120.fits" "2019" "s0001" "0000000123" "0120.fits" ["data"] [] 123
     (by decide) (by decide) (by decide)⟩

/-- Claim C8 (counterexample): the claim says every matched file with fewer
than four hyphen-delimited tokens fails with an index-out-of-range error.
The name `a-b-c` has three tokens, yet decoding fails with a conversion
error, not an index error: `np.int(fname_split[2])` runs — and raises
`ValueError` on `"c"` — before `fname_split[3]` is ever indexed. -/
theorem read_tess_info_three_token_value_error :
    (pySplit "a-b-c" '-').length = 3 ∧
    read_tess_info_row "dir/a-b-c" = Except.error PyErr.valueError ∧
    PyErr.valueError ≠ PyErr.indexError := by
  decide

/-- Claim C8 (amended): a matched file whose name has fewer than three
hyphen-delimited tokens fails with an index-out-of-range error; whenever
the third token exists but is not integer-parseable (which includes
three-token names), decoding fails with a conversion error; a three-token
name whose third token does parse fails with an index-out-of-range error
(at the cadence token); and a build that returns a catalog decoded every
file, so any failing file aborts the build with no partial catalog. -/
theorem read_tess_info_malformed_spec :
    (∀ path sub fn (pre : List String), pySplit path '/' = pre ++ [sub, fn] →
        (pySplit fn '-').length < 3 →
        read_tess_info_row path = Except.error PyErr.indexError) ∧
    (∀ path sub fn t (pre : List String), pySplit path '/' = pre ++ [sub, fn] →
        (pySplit fn '-').get? 2 = some t →
        pyInt t = Except.error PyErr.valueError →
        read_tess_info_row path = Except.error PyErr.valueError) ∧
    (∀ path sub fn t (pre : List String) n, pySplit path '/' = pre ++ [sub, fn] →
        (pySplit fn '-').length = 3 →
        (pySplit fn '-').get? 2 = some t → pyInt t = Except.ok n →
        read_tess_info_row path = Except.error PyErr.indexError) ∧
    (∀ files rows, read_tess_info files = Except.ok rows →
        ∀ f ∈ files, ∃ row, read_tess_info_row f = Except.ok row) := by
  refine ⟨?_, ?_, ?_, read_tess_info_ok_mem⟩
  · intro path sub fn pre hp hl
    match htok : pySplit fn '-' with
    | [] =>
        simp only [read_tess_info_row, hp, htok, pyIndex_append_neg_two, pyIndex_append_neg_one,
          pyIndex_nil_zero, except_bind_ok, except_bind_error]
    | [a] =>
        simp only [read_tess_info_row, hp, htok, pyIndex_append_neg_two, pyIndex_append_neg_one,
          pyIndex_cons_zero, pyIndex_one_one, except_bind_ok, except_bind_error]
    | [a, b] =>
        simp only [read_tess_info_row, hp, htok, pyIndex_append_neg_two, pyIndex_append_neg_one,
          pyIndex_cons_zero, pyIndex_cons_one, pyIndex_two_two, except_bind_ok,
          except_bind_error]
    | a :: b :: c :: l =>
        rw [htok] at hl
        simp only [List.length_cons] at hl
        omega
  · intro path sub fn t pre hp hget hbad
    match htok : pySplit fn '-' with
    | [] => rw [htok] at hget; cases hget
    | [a] => rw [htok] at hget; simp at hget
    | [a, b] => rw [htok] at hget; simp at hget
    | a :: b :: c :: l =>
        rw [htok] at hget
        have hc : c = t := by simpa using hget
        subst hc
        simp only [read_tess_info_row, hp, htok, pyIndex_append_neg_two, pyIndex_append_neg_one,
          pyIndex_cons_zero, pyIndex_cons_one, pyIndex_cons_two, hbad, except_bind_ok,
          except_bind_error]
  · intro path sub fn t pre n hp hlen hget hok
    match htok : pySplit fn '-' with
    | [] => rw [htok] at hget; cases hget
    | [a] => rw [htok] at hget; simp at hget
    | [a, b] => rw [htok] at hget; simp at hget
    | [a, b, c] =>
        rw [htok] at hget
        have hc : c = t := by simpa using hget
        subst hc
        simp only [read_tess_info_row, hp, htok, pyIndex_append_neg_two, pyIndex_append_neg_one,
          pyIndex_cons_zero, pyIndex_cons_one, pyIndex_cons_two, hok,
          pyIndex_three_three, except_bind_ok, except_bind_error]
    | a :: b :: c :: d :: l =>
        rw [htok] at hlen
        simp only [List.length_cons] at hlen
        omega

/-- Claim C8 (witness for the amended theorem). -/
theorem read_tess_info_malformed_spec_witness :
    (pySplit "d/ab" '/' = ["d", "ab"] ∧ (pySplit "ab" '-').length < 3 ∧
      read_tess_info_row "d/ab" = Except.error PyErr.indexError) ∧
    ((pySplit "a-b-c" '-').get? 2 = some "c" ∧ pyInt "c" = Except.error PyErr.valueError ∧
      read_tess_info_row "d/a-b-c" = Except.error PyErr.valueError) ∧
    ((pySplit "a-b-3" '-').length = 3 ∧ pyInt "3" = Except.ok 3 ∧
      read_tess_info_row "d/a-b-3" = Except.error PyErr.indexError) ∧
    (read_tess_info ["d/a-b-3-x"] = Except.ok
      [{ subdir := "d", filename := "a-b-3-x", daterange := "a", sector_no := "b",
         tess_id := 3, cadence := "x" }] ∧
      ∃ row, read_tess_info_row "d/a-b-3-x" = Except.ok row) :=
  ⟨⟨by decide, by decide,
    read_tess_info_malformed_spec.1 "d/ab" "d" "ab" [] (by decide) (by decide)⟩,
   ⟨by decide, by decide,
    read_tess_info_malformed_spec.2.1 "d/a-b-c" "d" "a-b-c" "c" [] (by decide) (by decide)
      (by decide)⟩,
   ⟨by decide, by decide,
    read_tess_info_malformed_spec.2.2.1 "d/a-b-3" "d" "a-b-3" "3" [] 3 (by decide) (by decide)
      (by decide) (by decide)⟩,
   ⟨by decide,
    read_tess_info_malformed_spec.2.2.2 ["d/a-b-3-x"]
      [{ subdir := "d", filename := "a-b-3-x", daterange := "a", sector_no := "b",
         tess_id := 3, cadence := "x" }] (by decide) "d/a-b-3-x"
      (List.mem_singleton.mpr rfl)⟩⟩

/-- Claim C3: `read_tess_lightcurve` drops the first sample of each raw
series, then keeps index `i` iff `quality[i]` equals the caller-supplied
flag and `flux[i]` is finite, applying the identical mask to time, flux and
flux uncertainty: the three outputs have equal length; every returned flux
value is finite; the returned length is at most the raw length minus one;
the zipped outputs equal one common masked selection of the zipped
truncated inputs (index alignment) and form a sublist of them (relative
order); and the mask bit at `i` is exactly
`quality[i] == flag && isfinite flux[i]`. -/
theorem read_tess_lightcurve_filter_spec
    (time flux flux_err quality t' f' e' : List FV) (flag : Int)
    (h1 : time.length = flux.length) (h2 : flux.length = flux_err.length)
    (h3 : flux.length = quality.length)
    (hproc : lc_process time flux flux_err quality flag = (t', f', e')) :
    (t'.length = f'.length ∧ f'.length = e'.length) ∧
    (∀ v ∈ f', FV.isfinite v = true) ∧
    t'.length ≤ time.length - 1 ∧
    t'.zip (f'.zip e') =
      applyMask (time.tail.zip (flux.tail.zip flux_err.tail))
        (maskOf quality.tail flux.tail flag) ∧
    List.Sublist (t'.zip (f'.zip e')) (time.tail.zip (flux.tail.zip flux_err.tail)) ∧
    (∀ i : Nat, (maskOf quality.tail flux.tail flag).get? i =
      (quality.tail.get? i).bind (fun a => (flux.tail.get? i).map
        (fun x => decide (a = FV.fin (flag : ℚ)) && FV.isfinite x))) := by
  simp only [lc_process, Prod.mk.injEq] at hproc
  obtain ⟨ht, hf, he⟩ := hproc
  subst ht hf he
  have ltail1 : time.tail.length = flux.tail.length := by simp [h1]
  have ltail2 : flux.tail.length = flux_err.tail.length := by simp [h2]
  refine ⟨⟨applyMask_length_eq _ _ _ ltail1, applyMask_length_eq _ _ _ ltail2⟩,
    fun v hv => mem_applyMask_maskOf flag quality.tail flux.tail v hv, ?_, ?_, ?_,
    maskOf_get? flag _ _⟩
  · calc (applyMask time.tail (maskOf quality.tail flux.tail flag)).length
        ≤ time.tail.length := applyMask_length_le _ _
      _ = time.length - 1 := by simp
  · rw [applyMask_zip, applyMask_zip]
  · rw [← applyMask_zip, ← applyMask_zip]
    exact applyMask_sublist _ _

/-- Claim C3 (witness). -/
theorem read_tess_lightcurve_filter_spec_witness :
    ([FV.nan, FV.fin 1] : List FV).length = ([FV.nan, FV.fin 2] : List FV).length ∧
    ([FV.nan, FV.fin 2] : List FV).length = ([FV.nan, FV.fin 3] : List FV).length ∧
    ([FV.nan, FV.fin 2] : List FV).length = ([FV.fin 5, FV.fin 0] : List FV).length ∧
    lc_process [FV.nan, FV.fin 1] [FV.nan, FV.fin 2] [FV.nan, FV.fin 3] [FV.fin 5, FV.fin 0] 0
      = ([FV.fin 1], [FV.fin 2], [FV.fin 3]) ∧
    (((([FV.fin 1] : List FV).length = ([FV.fin 2] : List FV).length) ∧
      (([FV.fin 2] : List FV).length = ([FV.fin 3] : List FV).length)) ∧
     (∀ v ∈ ([FV.fin 2] : List FV), FV.isfinite v = true) ∧
     ([FV.fin 1] : List FV).length ≤ ([FV.nan, FV.fin 1] : List FV).length - 1 ∧
     ([FV.fin 1] : List FV).zip (([FV.fin 2] : List FV).zip [FV.fin 3]) =
       applyMask (([FV.nan, FV.fin 1] : List FV).tail.zip
           (([FV.nan, FV.fin 2] : List FV).tail.zip ([FV.nan, FV.fin 3] : List FV).tail))
         (maskOf ([FV.fin 5, FV.fin 0] : List FV).tail ([FV.nan, FV.fin 2] : List FV).tail 0) ∧
     List.Sublist (([FV.fin 1] : List FV).zip (([FV.fin 2] : List FV).zip [FV.fin 3]))
       (([FV.nan, FV.fin 1] : List FV).tail.zip
         (([FV.nan, FV.fin 2] : List FV).tail.zip ([FV.nan, FV.fin 3] : List FV).tail)) ∧
     (∀ i : Nat,
       (maskOf ([FV.fin 5, FV.fin 0] : List FV).tail ([FV.nan, FV.fin 2] : List FV).tail 0).get? i =
       (([FV.fin 5, FV.fin 0] : List FV).tail.get? i).bind
         (fun a => (([FV.nan, FV.fin 2] : List FV).tail.get? i).map
           (fun x => decide (a = FV.fin (((0 : Int)) : ℚ)) && FV.isfinite x)))) :=
  ⟨rfl, rfl, rfl, by decide,
   read_tess_lightcurve_filter_spec [FV.nan, FV.fin 1] [FV.nan, FV.fin 2] [FV.nan, FV.fin 3]
     [FV.fin 5, FV.fin 0] [FV.fin 1] [FV.fin 2] [FV.fin 3] 0 rfl rfl rfl (by decide)⟩

/-- Claim C7 (counterexample): the claim quantifies over every list of
reference tables, but on the empty list the concatenation step does not
produce a combined table at all — `pd.concat` of no objects raises
`ValueError`. -/
theorem pd_concat_empty_list_error :
    pd_concat ([] : List DF) = Except.error PyErr.noObjectsToConcatenate := rfl

/-- Claim C7 (amended): for every non-empty list of well-formed reference
tables, the concatenation step produces a combined table whose row count is
the sum of the input row counts, whose column set is the union of the input
column sets, and whose rows are carried over unchanged so that every cell
of a column absent from a row's source table is null. -/
theorem pd_concat_union_spec (dfs : List DF) (out : DF)
    (hne : dfs ≠ []) (hwf : ∀ df ∈ dfs, DF.WF df)
    (hout : pd_concat dfs = Except.ok out) :
    out.rows.length = (dfs.map (fun df => df.rows.length)).sum ∧
    (∀ c, c ∈ out.cols ↔ ∃ df ∈ dfs, c ∈ df.cols) ∧
    (∀ r ∈ out.rows, ∃ df ∈ dfs, r ∈ df.rows ∧
      ∀ c, c ∉ df.cols → cellOf r c = none) := by
  rw [pd_concat, if_neg hne] at hout
  injection hout with h
  subst h
  refine ⟨?_, ?_, ?_⟩
  · rw [List.length_flatten, List.map_map]
    rfl
  · intro c
    rw [mem_insSort, List.mem_dedup, List.mem_flatten]
    constructor
    · rintro ⟨l, hl, hc⟩
      obtain ⟨df, hdf, rfl⟩ := List.mem_map.mp hl
      exact ⟨df, hdf, hc⟩
    · rintro ⟨df, hdf, hc⟩
      exact ⟨df.cols, List.mem_map.mpr ⟨df, hdf, rfl⟩, hc⟩
  · intro r hr
    obtain ⟨l, hl, hrl⟩ := List.mem_flatten.mp hr
    obtain ⟨df, hdf, rfl⟩ := List.mem_map.mp hl
    refine ⟨df, hdf, hrl, fun c hc => ?_⟩
    exact lookup_none_of_keys_subset c r df.cols (hwf df hdf r hrl) hc

/-- Claim C7 (witness for the amended theorem). -/
theorem pd_concat_union_spec_witness :
    ([gaiaA, gaiaB] ≠ ([] : List DF)) ∧ (∀ df ∈ [gaiaA, gaiaB], DF.WF df) ∧
    pd_concat [gaiaA, gaiaB] = Except.ok gaiaAB ∧
    (gaiaAB.rows.length = ([gaiaA, gaiaB].map (fun df => df.rows.length)).sum ∧
     (∀ c, c ∈ gaiaAB.cols ↔ ∃ df ∈ [gaiaA, gaiaB], c ∈ df.cols) ∧
     (∀ r ∈ gaiaAB.rows, ∃ df ∈ [gaiaA, gaiaB], r ∈ df.rows ∧
       ∀ c, c ∉ df.cols → cellOf r c = none)) :=
  ⟨by decide, by simp only [DF.WF]; decide, by decide,
   pd_concat_union_spec [gaiaA, gaiaB] gaiaAB (by decide)
     (by simp only [DF.WF]; decide) (by decide)⟩

end DataWrangling
